import Mathlib

/-!
Verification of the retry/backoff core of the TelegramIOSProxy translation
relay (src/proxy-server/main.py): upstream outcome classification
(`_call_openrouter`), the retry orchestration loop (`_retry_translate`),
the per-request coordinator (`TranslationService.translate`), the
`/translate` endpoint short-circuit, and the `/stats` snapshot formulas.

The network call itself is external; one completed HTTP exchange is
modelled as an `UpstreamHttpResponse` value, and a whole upstream is a
function from the call index to the classified outcome of that call.
Python floats are modelled as rationals; wall-clock time is a parameter.
-/

namespace TranslationProxy

/-- Strip leading and trailing whitespace from a character list,
modelling Python `str.strip()`. -/
def stripChars (l : List Char) : List Char :=
  ((l.dropWhile Char.isWhitespace).reverse.dropWhile Char.isWhitespace).reverse

/-- Python `str.strip()` on a string. -/
def pyStrip (s : String) : String :=
  ⟨stripChars s.data⟩

/-- Value of a digit list, most significant first. -/
def digitsVal (l : List Char) : Nat :=
  l.foldl (fun a c => a * 10 + (c.toNat - 48)) 0

/-- Whether every character in the list is an ASCII digit. -/
def allDigits (l : List Char) : Bool :=
  l.all Char.isDigit

/-- Magnitude part of Python `float(str)` parsing on the plain decimal
subset `digits [. digits]` (no exponent, no inf/nan); `none` means the
parse raises `ValueError`. -/
def pyFloatMag (l : List Char) : Option Rat :=
  let intPart := l.takeWhile (fun c => c ≠ '.')
  match l.dropWhile (fun c => c ≠ '.') with
  | [] =>
    if intPart ≠ [] ∧ allDigits intPart then some (digitsVal intPart) else none
  | _ :: frac =>
    if (intPart ≠ [] ∨ frac ≠ []) ∧ allDigits intPart ∧ allDigits frac then
      some ((digitsVal intPart : Rat) + (digitsVal frac : Rat) / ((10 : Rat) ^ frac.length))
    else none

/-- Python `float(str)`: strips surrounding whitespace, accepts an
optional sign and a decimal literal; `none` models `ValueError`. -/
def pyFloat (s : String) : Option Rat :=
  match stripChars s.data with
  | '+' :: rest => pyFloatMag rest
  | '-' :: rest => (pyFloatMag rest).map Neg.neg
  | rest => pyFloatMag rest

/-- The classified outcome of one upstream call, mirroring the exception
taxonomy of `_call_openrouter` as observed by `_retry_translate`:
`ok` is a normal return, `emptyResponse` is `EmptyResponseError`,
`payment` is `PaymentError`, `rateLimited` is `RateLimitError` carrying
its `retry_after`, `transient` is an httpx timeout/read/connect error,
`openRouter` is the base `OpenRouterError`, and `unexpected` is any
other exception (caught by the bare `except Exception`). -/
inductive CallResult where
  | ok (text : String)
  | emptyResponse
  | payment
  | rateLimited (retryAfter : Rat)
  | transient
  | openRouter
  | unexpected
deriving DecidableEq, Repr

/-- One completed HTTP exchange with the completion endpoint, as
consumed by `_call_openrouter`: the status code, the optional
`Retry-After` header, the optional embedded error object's code
(`data.error.get("code", 0)` when an `error` key is present), and the
list of `choices[i].message.content` strings. -/
structure UpstreamHttpResponse where
  statusCode : Nat
  retryAfterHeader : Option String
  errorCode : Option Nat
  choices : List String
deriving DecidableEq, Repr

/-- Classification logic of `_call_openrouter` (main.py lines 151-181)
on a completed HTTP exchange. Status 402 raises `PaymentError`; status
429 reads `Retry-After` (defaulting to the string "5" when absent) and
raises `RateLimitError` with `float(retry_after)` — when that float
parse fails, the `ValueError` escapes the function and is classified
`unexpected` by the caller's bare `except Exception`. Other statuses
at least 400 raise the base `OpenRouterError`. On transport success an
embedded error code 402/429 maps to payment/rate-limited (the latter
with the constructor default delay 5.0); any other embedded error is
the base error. No choices, or a first content empty after `strip()`,
raises `EmptyResponseError`; otherwise the stripped content is
returned. -/
def classifyResponse (r : UpstreamHttpResponse) : CallResult :=
  if r.statusCode = 402 then CallResult.payment
  else if r.statusCode = 429 then
    match pyFloat (r.retryAfterHeader.getD "5") with
    | some v => CallResult.rateLimited v
    | none => CallResult.unexpected
  else if r.statusCode ≥ 400 then CallResult.openRouter
  else
    match r.errorCode with
    | some c =>
      if c = 402 then CallResult.payment
      else if c = 429 then CallResult.rateLimited 5
      else CallResult.openRouter
    | none =>
      match r.choices with
      | [] => CallResult.emptyResponse
      | c :: _ =>
        if pyStrip c = "" then CallResult.emptyResponse else CallResult.ok (pyStrip c)

example : pyFloat "5" = some 5 := by decide
example : pyFloat "2" = some 2 := by decide
example : pyFloat "abc" = none := by decide
example : pyFloat " 25 " = some 25 := by decide
example : pyFloat "-3" = some (-3) := by decide
example : pyFloat "1.2.3" = none := by decide
example : pyFloat "" = none := by decide
example : classifyResponse ⟨429, none, none, []⟩ = CallResult.rateLimited 5 := by decide
example : classifyResponse ⟨429, some "abc", none, []⟩ = CallResult.unexpected := by decide
example : classifyResponse ⟨200, none, none, [" hallo "]⟩ = CallResult.ok "hallo" := by decide
example : classifyResponse ⟨200, none, none, ["  "]⟩ = CallResult.emptyResponse := by decide
example : classifyResponse ⟨200, none, some 429, ["x"]⟩ = CallResult.rateLimited 5 := by decide
example : classifyResponse ⟨500, none, none, []⟩ = CallResult.openRouter := by decide

/-- Retry schedule for `EmptyResponseError` (`empty_delays` in
`_retry_translate`). -/
def emptyDelays : List Rat := [1, 2, 4, 8, 16]

/-- Retry schedule for `PaymentError` (`payment_delays`). -/
def paymentDelays : List Rat := [5, 5, 5]

/-- Retry schedule for connection/timeout errors (`timeout_delays`);
only its length is consulted, the loop performs no sleep for this kind. -/
def timeoutDelays : List Rat := [0, 0, 0]

/-- Observable state threaded through one `_retry_translate` invocation:
the four per-kind retry counters, the cumulative `stats["retries"]`
increments this invocation performed, the number of upstream calls
made, and the sequence of `asyncio.sleep` delays performed, in order. -/
structure LoopState where
  emptyRetries : Nat
  paymentRetries : Nat
  timeoutRetries : Nat
  rateLimitRetries : Nat
  retriesStat : Nat
  calls : Nat
  delays : List Rat
deriving DecidableEq, Repr

/-- The counters and logs at entry of `_retry_translate`. -/
def initLoopState : LoopState :=
  { emptyRetries := 0, paymentRetries := 0, timeoutRetries := 0,
    rateLimitRetries := 0, retriesStat := 0, calls := 0, delays := [] }

/-- Record one more upstream call. -/
def bump (st : LoopState) : LoopState :=
  { st with calls := st.calls + 1 }

/-- Terminal outcome of `_retry_translate`: a returned translation, or
the `TranslationExhaustedError` raised after the loop ends or breaks. -/
inductive RetryOutcome where
  | translated (text : String)
  | exhausted
deriving DecidableEq, Repr

/-- The `for attempt in range(max_total_attempts)` loop of
`_retry_translate` (main.py lines 243-302), with the remaining
iteration count as the recursion measure. `upstream i` is the
classified outcome of the i-th upstream call (0-based). Each branch
mirrors one `except` clause: the budget check uses the counter value
from before the increment, as does the schedule lookup; the
connection/timeout branch increments its counter without sleeping;
`OpenRouterError` and the bare `except Exception` break immediately.
Both a break and normal loop exit end in the exhausted outcome. -/
def retryAux (upstream : Nat → CallResult) : Nat → LoopState → RetryOutcome × LoopState
  | 0, st => (RetryOutcome.exhausted, st)
  | fuel + 1, st =>
    match upstream st.calls with
    | CallResult.ok t => (RetryOutcome.translated t, bump st)
    | CallResult.emptyResponse =>
      if st.emptyRetries ≥ emptyDelays.length then (RetryOutcome.exhausted, bump st)
      else
        retryAux upstream fuel
          { bump st with
            emptyRetries := st.emptyRetries + 1,
            retriesStat := st.retriesStat + 1,
            delays := st.delays ++ [emptyDelays.getD st.emptyRetries 0] }
    | CallResult.payment =>
      if st.paymentRetries ≥ paymentDelays.length then (RetryOutcome.exhausted, bump st)
      else
        retryAux upstream fuel
          { bump st with
            paymentRetries := st.paymentRetries + 1,
            retriesStat := st.retriesStat + 1,
            delays := st.delays ++ [paymentDelays.getD st.paymentRetries 0] }
    | CallResult.rateLimited ra =>
      if st.rateLimitRetries ≥ 3 then (RetryOutcome.exhausted, bump st)
      else
        retryAux upstream fuel
          { bump st with
            rateLimitRetries := st.rateLimitRetries + 1,
            retriesStat := st.retriesStat + 1,
            delays := st.delays ++ [ra] }
    | CallResult.transient =>
      if st.timeoutRetries ≥ timeoutDelays.length then (RetryOutcome.exhausted, bump st)
      else
        retryAux upstream fuel
          { bump st with
            timeoutRetries := st.timeoutRetries + 1,
            retriesStat := st.retriesStat + 1 }
    | CallResult.openRouter => (RetryOutcome.exhausted, bump st)
    | CallResult.unexpected => (RetryOutcome.exhausted, bump st)

/-- `_retry_translate`: at most `max_total_attempts = 6` loop
iterations starting from fresh counters. -/
def retryTranslate (upstream : Nat → CallResult) : RetryOutcome × LoopState :=
  retryAux upstream 6 initLoopState

example :
    retryTranslate (fun _ => CallResult.ok "hi") =
      (RetryOutcome.translated "hi", { initLoopState with calls := 1 }) := by decide

example :
    (retryTranslate (fun _ => CallResult.emptyResponse)).2.calls = 6 := by decide

example :
    (retryTranslate (fun _ => CallResult.emptyResponse)).2.retriesStat = 5 := by decide

example :
    (retryTranslate (fun _ => CallResult.emptyResponse)).2.delays = [1, 2, 4, 8, 16] := by
  decide

example :
    (retryTranslate (fun _ => CallResult.openRouter)).2.calls = 1 := by decide

/-- One message of the request's conversation context. -/
structure ContextMessage where
  role : String
  text : String
deriving DecidableEq, Repr

/-- `TranslateRequest` (pydantic model): text, direction, chat id and
conversation context. -/
structure TranslateRequest where
  text : String
  direction : String
  chat_id : String
  context : List ContextMessage
deriving DecidableEq, Repr

/-- `TranslateResponse` (pydantic model). -/
structure TranslateResponse where
  translated_text : String
  original_text : String
  direction : String
  translation_failed : Bool
deriving DecidableEq, Repr

/-- The service's mutable stats dictionary (`self.stats`), with the
response-time accumulator as an exact rational in milliseconds. -/
structure Stats where
  totalRequests : Nat
  successful : Nat
  failed : Nat
  retries : Nat
  fallbacks : Nat
  totalResponseTimeMs : Rat
deriving DecidableEq, Repr

/-- The stats dictionary as initialised in `TranslationService.__init__`. -/
def stats0 : Stats :=
  { totalRequests := 0, successful := 0, failed := 0, retries := 0,
    fallbacks := 0, totalResponseTimeMs := 0 }

/-- `TranslationService.translate` (main.py lines 183-225): bump
`total_requests`, run the retry loop, and either return the translated
text with `translation_failed = false` and bump `successful`, or catch
`TranslationExhaustedError`, echo the original text with
`translation_failed = true` and bump `failed` and `fallbacks`. The
`retries` increments performed inside the loop and the elapsed
wall-clock time (a parameter here) are folded into the stats either
way. Also returns the number of upstream calls the loop made. -/
def translate (req : TranslateRequest) (upstream : Nat → CallResult)
    (elapsedMs : Rat) (s : Stats) : TranslateResponse × Stats × Nat :=
  let s1 := { s with totalRequests := s.totalRequests + 1 }
  match retryTranslate upstream with
  | (RetryOutcome.translated t, loopSt) =>
    ({ translated_text := t, original_text := req.text,
       direction := req.direction, translation_failed := false },
     { s1 with
       successful := s1.successful + 1,
       retries := s1.retries + loopSt.retriesStat,
       totalResponseTimeMs := s1.totalResponseTimeMs + elapsedMs },
     loopSt.calls)
  | (RetryOutcome.exhausted, loopSt) =>
    ({ translated_text := req.text, original_text := req.text,
       direction := req.direction, translation_failed := true },
     { s1 with
       failed := s1.failed + 1,
       fallbacks := s1.fallbacks + 1,
       retries := s1.retries + loopSt.retriesStat,
       totalResponseTimeMs := s1.totalResponseTimeMs + elapsedMs },
     loopSt.calls)

/-- The `/translate` endpoint handler (main.py lines 338-347): a text
that is empty after `strip()` is answered directly, echoing the input
with `translation_failed = false`, without touching the service;
otherwise the request is delegated to `TranslationService.translate`.
The third component counts upstream calls made while handling the
request. -/
def translateEndpoint (req : TranslateRequest) (upstream : Nat → CallResult)
    (elapsedMs : Rat) (s : Stats) : TranslateResponse × Stats × Nat :=
  if pyStrip req.text = "" then
    ({ translated_text := req.text, original_text := req.text,
       direction := req.direction, translation_failed := false }, s, 0)
  else
    translate req upstream elapsedMs s

/-- Round a rational to the nearest integer, ties to even, modelling
Python's `round` on an exactly-represented value. -/
def roundHalfEven (q : Rat) : Int :=
  let fl := ⌊q⌋
  if q - (fl : Rat) < 1 / 2 then fl
  else if (1 : Rat) / 2 < q - (fl : Rat) then fl + 1
  else if fl % 2 = 0 then fl else fl + 1

/-- Python `round(q, n)` on an exactly-represented rational. -/
def roundTo (n : Nat) (q : Rat) : Rat :=
  (roundHalfEven (q * ((10 : Rat) ^ n)) : Rat) / ((10 : Rat) ^ n)

/-- The JSON object computed by the `/stats` endpoint (main.py lines
359-372). -/
structure StatsView where
  total_requests : Nat
  successful : Nat
  failed : Nat
  retries : Nat
  fallbacks : Nat
  success_rate : Rat
  avg_response_time_ms : Rat
deriving DecidableEq, Repr

/-- The `/stats` endpoint handler: counters verbatim,
`success_rate = round(successful / total, 4)` when `total > 0` else 0,
and `avg_response_time_ms = round(total_response_time_ms / total, 1)`
when `total > 0` else 0. -/
def statsSnapshot (s : Stats) : StatsView :=
  { total_requests := s.totalRequests,
    successful := s.successful,
    failed := s.failed,
    retries := s.retries,
    fallbacks := s.fallbacks,
    success_rate :=
      if s.totalRequests > 0 then
        roundTo 4 ((s.successful : Rat) / (s.totalRequests : Rat))
      else 0,
    avg_response_time_ms :=
      if s.totalRequests > 0 then
        roundTo 1 (s.totalResponseTimeMs / (s.totalRequests : Rat))
      else 0 }

/-- One inbound request together with its upstream behaviour and its
elapsed wall-clock time: the data determining one completed
`TranslationService.translate` call. -/
structure RunSpec where
  req : TranslateRequest
  upstream : Nat → CallResult
  elapsedMs : Rat

/-- Whether the retry loop succeeds for this run's upstream. -/
def runSucceeds (r : RunSpec) : Bool :=
  match (retryTranslate r.upstream).1 with
  | RetryOutcome.translated _ => true
  | RetryOutcome.exhausted => false

/-- Completed `translate` calls applied in sequence to the shared
stats. -/
def runAll : List RunSpec → Stats → Stats
  | [], s => s
  | r :: rs, s => runAll rs (translate r.req r.upstream r.elapsedMs s).2.1

/-! Theorems. -/

/-- Each loop iteration adds exactly one upstream call, so the final
call count is bounded by the starting count plus the remaining
iteration budget. -/
theorem retryAux_calls_le (upstream : Nat → CallResult) :
    ∀ fuel st, (retryAux upstream fuel st).2.calls ≤ st.calls + fuel := by
  intro fuel
  induction fuel with
  | zero => intro st; simp [retryAux]
  | succ n ih =>
    intro st
    simp only [retryAux]
    cases hu : upstream st.calls with
    | ok t => dsimp only [bump]; omega
    | emptyResponse =>
      dsimp only
      split
      · dsimp only [bump]; omega
      · refine le_trans (ih _) ?_
        dsimp only [bump]
        omega
    | payment =>
      dsimp only
      split
      · dsimp only [bump]; omega
      · refine le_trans (ih _) ?_
        dsimp only [bump]
        omega
    | rateLimited ra =>
      dsimp only
      split
      · dsimp only [bump]; omega
      · refine le_trans (ih _) ?_
        dsimp only [bump]
        omega
    | transient =>
      dsimp only
      split
      · dsimp only [bump]; omega
      · refine le_trans (ih _) ?_
        dsimp only [bump]
        omega
    | openRouter => dsimp only [bump]; omega
    | unexpected => dsimp only [bump]; omega

/-- C2: for every upstream behaviour, one `_retry_translate` invocation
makes at most 6 upstream calls (1 initial attempt plus at most 5
retries), and the loop terminates with either a returned translation
or the exhaustion signal. -/
theorem retry_bounded_and_terminates (upstream : Nat → CallResult) :
    (retryTranslate upstream).2.calls ≤ 6 ∧
    ((∃ t, (retryTranslate upstream).1 = RetryOutcome.translated t) ∨
      (retryTranslate upstream).1 = RetryOutcome.exhausted) := by
  constructor
  · have h := retryAux_calls_le upstream 6 initLoopState
    simpa [retryTranslate, initLoopState] using h
  · cases h : (retryTranslate upstream).1 with
    | translated t => exact Or.inl ⟨t, rfl⟩
    | exhausted => exact Or.inr rfl

/-- C1: every completed `TranslationService.translate` call either
reports `translation_failed = false` with the translated text being
exactly what the retry loop returned from the upstream, or reports
`translation_failed = true` with the translated text equal to the
original text after loop exhaustion; a translated text distinct from
the original therefore never coexists with `translation_failed = true`,
and the two cases are mutually exclusive on the flag. -/
theorem translate_success_or_fallback (req : TranslateRequest)
    (upstream : Nat → CallResult) (elapsedMs : Rat) (s : Stats) :
    ((translate req upstream elapsedMs s).1.translation_failed = false ∧
      (∃ st, retryTranslate upstream =
        (RetryOutcome.translated
          (translate req upstream elapsedMs s).1.translated_text, st))) ∨
    ((translate req upstream elapsedMs s).1.translation_failed = true ∧
      (translate req upstream elapsedMs s).1.translated_text =
        (translate req upstream elapsedMs s).1.original_text ∧
      (retryTranslate upstream).1 = RetryOutcome.exhausted) := by
  rcases h : retryTranslate upstream with ⟨ro, ls⟩
  cases ro with
  | translated t =>
    left
    constructor
    · simp [translate, h]
    · exact ⟨ls, by simp [translate, h]⟩
  | exhausted =>
    right
    refine ⟨by simp [translate, h], by simp [translate, h], by simp [h]⟩

/-- C3: when the upstream yields `EmptyResponseError` on every attempt,
the retry loop makes exactly 6 upstream calls, increments the retries
stat exactly 5 times, sleeps the exponential schedule 1, 2, 4, 8, 16,
and exhausts, so `translate` echoes the original text with
`translation_failed = true`. -/
theorem empty_every_attempt_exhausts :
    (retryTranslate (fun _ => CallResult.emptyResponse)).1 = RetryOutcome.exhausted ∧
    (retryTranslate (fun _ => CallResult.emptyResponse)).2.calls = 6 ∧
    (retryTranslate (fun _ => CallResult.emptyResponse)).2.retriesStat = 5 ∧
    (retryTranslate (fun _ => CallResult.emptyResponse)).2.delays = [1, 2, 4, 8, 16] ∧
    (translate ⟨"Guten Tag", "incoming", "c1", []⟩
        (fun _ => CallResult.emptyResponse) 0 stats0).1 =
      { translated_text := "Guten Tag", original_text := "Guten Tag",
        direction := "incoming", translation_failed := true } := by
  refine ⟨by decide, by decide, by decide, by decide, by decide⟩

/-- C4: per-kind retry budgets are independent: 3 `RateLimitError`
failures, then 2 `EmptyResponseError` failures, then a success make the
loop return the successful translation on the 6th call, with the
rate-limit counter at 3 (its cap) and the empty counter at 2 — neither
budget is exceeded and the total call count stays within the 6-cap. -/
theorem mixed_kind_budgets_independent :
    (retryTranslate (fun i =>
        if i < 3 then CallResult.rateLimited 1
        else if i < 5 then CallResult.emptyResponse
        else CallResult.ok "Hallo")).1 = RetryOutcome.translated "Hallo" ∧
    (retryTranslate (fun i =>
        if i < 3 then CallResult.rateLimited 1
        else if i < 5 then CallResult.emptyResponse
        else CallResult.ok "Hallo")).2.calls = 6 ∧
    (retryTranslate (fun i =>
        if i < 3 then CallResult.rateLimited 1
        else if i < 5 then CallResult.emptyResponse
        else CallResult.ok "Hallo")).2.rateLimitRetries = 3 ∧
    (retryTranslate (fun i =>
        if i < 3 then CallResult.rateLimited 1
        else if i < 5 then CallResult.emptyResponse
        else CallResult.ok "Hallo")).2.emptyRetries = 2 := by
  refine ⟨by decide, by decide, by decide, by decide⟩

/-- C5: a `RateLimitError` retry sleeps the dynamic `retry_after` value
carried by the failure: three rate-limit failures with
`retry_after = 2` followed by a success give 4 upstream calls, observed
delays exactly [2, 2, 2], and success on the 4th call. -/
theorem rate_limited_dynamic_delay :
    (retryTranslate (fun i =>
        if i < 3 then CallResult.rateLimited 2
        else CallResult.ok "Servus")).1 = RetryOutcome.translated "Servus" ∧
    (retryTranslate (fun i =>
        if i < 3 then CallResult.rateLimited 2
        else CallResult.ok "Servus")).2.calls = 4 ∧
    (retryTranslate (fun i =>
        if i < 3 then CallResult.rateLimited 2
        else CallResult.ok "Servus")).2.delays = [2, 2, 2] := by
  refine ⟨by decide, by decide, by decide⟩

/-- C10: when the 6th and final call fails with a retryable kind whose
budget still has room, the loop increments that kind's counter and the
retries stat and sleeps the scheduled delay before the loop ends in
exhaustion: 3 rate-limited failures followed by 3 empty responses give
6 calls, 6 recorded retries (although only 5 of the calls were
retries), a sleep after the last call (6 observed delays), and
exhaustion. -/
theorem final_attempt_retry_accounting :
    (retryTranslate (fun i =>
        if i < 3 then CallResult.rateLimited 1
        else CallResult.emptyResponse)).1 = RetryOutcome.exhausted ∧
    (retryTranslate (fun i =>
        if i < 3 then CallResult.rateLimited 1
        else CallResult.emptyResponse)).2.calls = 6 ∧
    (retryTranslate (fun i =>
        if i < 3 then CallResult.rateLimited 1
        else CallResult.emptyResponse)).2.retriesStat = 6 ∧
    (retryTranslate (fun i =>
        if i < 3 then CallResult.rateLimited 1
        else CallResult.emptyResponse)).2.delays = [1, 1, 1, 1, 2, 4] := by
  refine ⟨by decide, by decide, by decide, by decide⟩

/-- C6 counterexample: with HTTP status 429 and a `Retry-After` header
that does not parse as a float, `_call_openrouter` does not classify
the outcome as rate-limited with delay 5.0: the `ValueError` raised by
`float("abc")` escapes and is classified as an unexpected,
non-retryable failure. -/
theorem rate_limit_unparseable_not_default :
    classifyResponse ⟨429, some "abc", none, []⟩ = CallResult.unexpected ∧
    classifyResponse ⟨429, some "abc", none, []⟩ ≠ CallResult.rateLimited 5 := by
  refine ⟨by decide, by decide⟩

/-- C6 (amended): an HTTP 429 response is classified as rate-limited
with the delay parsed from the `Retry-After` header; the delay defaults
to 5.0 when the header is absent; when the header is present but its
value cannot be parsed as a float, the raised `ValueError` is
classified as an unexpected (non-retryable) failure rather than a
rate-limited one. -/
theorem rate_limit_classification (r : UpstreamHttpResponse)
    (h : r.statusCode = 429) :
    (r.retryAfterHeader = none → classifyResponse r = CallResult.rateLimited 5) ∧
    (∀ sv v, r.retryAfterHeader = some sv → pyFloat sv = some v →
      classifyResponse r = CallResult.rateLimited v) ∧
    (∀ sv, r.retryAfterHeader = some sv → pyFloat sv = none →
      classifyResponse r = CallResult.unexpected) := by
  have h5 : pyFloat "5" = some 5 := by decide
  refine ⟨?_, ?_, ?_⟩
  · intro hh
    simp [classifyResponse, h, hh, h5]
  · intro sv v hh hp
    simp [classifyResponse, h, hh, hp]
  · intro sv hh hp
    simp [classifyResponse, h, hh, hp]

/-- C6 witness: a 429 response with no `Retry-After` header is
classified as rate-limited with the default delay 5.0. -/
theorem rate_limit_classification_witness :
    classifyResponse ⟨429, none, none, []⟩ = CallResult.rateLimited 5 :=
  (rate_limit_classification ⟨429, none, none, []⟩ rfl).1 rfl

/-- C8: a request whose text is empty after `strip()` is answered by
the endpoint directly: the input text is echoed unchanged with
`translation_failed = false`, the shared stats are untouched, and zero
upstream calls are made. -/
theorem empty_text_bypasses_core (req : TranslateRequest)
    (upstream : Nat → CallResult) (elapsedMs : Rat) (s : Stats)
    (h : pyStrip req.text = "") :
    translateEndpoint req upstream elapsedMs s =
      ({ translated_text := req.text, original_text := req.text,
         direction := req.direction, translation_failed := false }, s, 0) := by
  simp [translateEndpoint, h]

/-- C8 witness: the whitespace-only request text is echoed with no
upstream call and untouched stats. -/
theorem empty_text_bypasses_core_witness :
    pyStrip "  " = "" ∧
    translateEndpoint ⟨"  ", "incoming", "", []⟩
        (fun _ => CallResult.unexpected) 0 stats0 =
      ({ translated_text := "  ", original_text := "  ",
         direction := "incoming", translation_failed := false }, stats0, 0) :=
  ⟨by decide,
   empty_text_bypasses_core ⟨"  ", "incoming", "", []⟩
     (fun _ => CallResult.unexpected) 0 stats0 (by decide)⟩

/-- A translation returned by the retry loop was returned by some
upstream call. -/
theorem retryAux_translated_source (upstream : Nat → CallResult) :
    ∀ fuel st t st2,
      retryAux upstream fuel st = (RetryOutcome.translated t, st2) →
      ∃ i, upstream i = CallResult.ok t := by
  intro fuel
  induction fuel with
  | zero => intro st t st2 h; simp [retryAux] at h
  | succ n ih =>
    intro st t st2 h
    simp only [retryAux] at h
    cases hu : upstream st.calls with
    | ok s =>
      rw [hu] at h
      dsimp only at h
      have hst : s = t := by
        have h1 := congrArg Prod.fst h
        simpa using h1
      exact ⟨st.calls, hst ▸ hu⟩
    | emptyResponse =>
      rw [hu] at h
      dsimp only at h
      split at h
      · simp at h
      · exact ih _ _ _ h
    | payment =>
      rw [hu] at h
      dsimp only at h
      split at h
      · simp at h
      · exact ih _ _ _ h
    | rateLimited ra =>
      rw [hu] at h
      dsimp only at h
      split at h
      · simp at h
      · exact ih _ _ _ h
    | transient =>
      rw [hu] at h
      dsimp only at h
      split at h
      · simp at h
      · exact ih _ _ _ h
    | openRouter => rw [hu] at h; simp at h
    | unexpected => rw [hu] at h; simp at h

/-- A successful classification returns the first candidate's content
stripped of surrounding whitespace, and that text is non-empty. -/
theorem classify_ok_strip (r : UpstreamHttpResponse) (t : String)
    (h : classifyResponse r = CallResult.ok t) :
    t = pyStrip (r.choices.headD "") ∧ t ≠ "" := by
  unfold classifyResponse at h
  split at h
  · simp at h
  · split at h
    · split at h <;> simp at h
    · split at h
      · simp at h
      · cases he : r.errorCode with
        | some c =>
          rw [he] at h
          dsimp only at h
          split at h
          · simp at h
          · split at h <;> simp at h
        | none =>
          rw [he] at h
          dsimp only at h
          cases hc : r.choices with
          | nil => rw [hc] at h; simp at h
          | cons c rest =>
            rw [hc] at h
            dsimp only at h
            split at h
            · simp at h
            · rename_i hne
              have ht : t = pyStrip c := by
                injection h with h2
                exact h2.symm
              refine ⟨?_, by rw [ht]; simpa using hne⟩
              rw [ht]
              rfl

/-- C9: when every upstream call is the classification of a completed
HTTP exchange, a `translate` call that reports success returns a
non-empty text equal to some exchange's first candidate content with
surrounding whitespace stripped; a candidate that is empty after
stripping is never returned as a success. -/
theorem upstream_success_text_trimmed_nonempty
    (resps : Nat → UpstreamHttpResponse) (req : TranslateRequest)
    (elapsedMs : Rat) (s : Stats)
    (h : (translate req (fun i => classifyResponse (resps i))
        elapsedMs s).1.translation_failed = false) :
    (translate req (fun i => classifyResponse (resps i))
        elapsedMs s).1.translated_text ≠ "" ∧
    ∃ i, (translate req (fun i => classifyResponse (resps i))
        elapsedMs s).1.translated_text =
      pyStrip ((resps i).choices.headD "") := by
  rcases hr : retryTranslate (fun i => classifyResponse (resps i)) with ⟨ro, ls⟩
  cases ro with
  | exhausted => rw [translate, hr] at h; simp at h
  | translated t =>
    have htext : (translate req (fun i => classifyResponse (resps i))
        elapsedMs s).1.translated_text = t := by
      rw [translate, hr]
    obtain ⟨i, hi⟩ :=
      retryAux_translated_source (fun i => classifyResponse (resps i)) 6
        initLoopState t ls hr
    obtain ⟨hstrip, hne⟩ := classify_ok_strip (resps i) t hi
    rw [htext]
    exact ⟨hne, ⟨i, hstrip⟩⟩

/-- C9 witness: an upstream whose single candidate is " Hallo " yields
a successful translation, so the theorem applies and the returned text
is the stripped, non-empty candidate. -/
theorem upstream_success_text_trimmed_nonempty_witness :
    (translate ⟨"hi", "outgoing", "", []⟩
        (fun _ => classifyResponse (⟨200, none, none, [" Hallo "]⟩ : UpstreamHttpResponse))
        0 stats0).1.translation_failed = false ∧
    ((translate ⟨"hi", "outgoing", "", []⟩
        (fun _ => classifyResponse (⟨200, none, none, [" Hallo "]⟩ : UpstreamHttpResponse))
        0 stats0).1.translated_text ≠ "" ∧
      ∃ i : Nat, (translate ⟨"hi", "outgoing", "", []⟩
          (fun _ => classifyResponse (⟨200, none, none, [" Hallo "]⟩ : UpstreamHttpResponse))
          0 stats0).1.translated_text =
        pyStrip ((⟨200, none, none, [" Hallo "]⟩ : UpstreamHttpResponse).choices.headD "")) :=
  ⟨by decide,
   upstream_success_text_trimmed_nonempty
     (fun _ => (⟨200, none, none, [" Hallo "]⟩ : UpstreamHttpResponse))
     ⟨"hi", "outgoing", "", []⟩ 0 stats0 (by decide)⟩

/-- One completed `translate` call bumps `total_requests` by one and
exactly one of `successful` / `fallbacks`, according to the loop
outcome. -/
theorem translate_stats_update (r : RunSpec) (s : Stats) :
    (translate r.req r.upstream r.elapsedMs s).2.1.totalRequests =
      s.totalRequests + 1 ∧
    (translate r.req r.upstream r.elapsedMs s).2.1.successful =
      s.successful + (if runSucceeds r then 1 else 0) ∧
    (translate r.req r.upstream r.elapsedMs s).2.1.fallbacks =
      s.fallbacks + (if runSucceeds r then 0 else 1) := by
  rcases hr : retryTranslate r.upstream with ⟨ro, ls⟩
  cases ro <;> simp [translate, hr, runSucceeds]

/-- Folding a sequence of completed requests over the stats counts
every request once and splits them between successes and fallbacks. -/
theorem runAll_stats (rs : List RunSpec) :
    ∀ s : Stats,
      (runAll rs s).totalRequests =
        s.totalRequests + rs.countP runSucceeds +
          rs.countP (fun r => !(runSucceeds r)) ∧
      (runAll rs s).successful = s.successful + rs.countP runSucceeds ∧
      (runAll rs s).fallbacks =
        s.fallbacks + rs.countP (fun r => !(runSucceeds r)) := by
  induction rs with
  | nil => intro s; simp [runAll]
  | cons r rs ih =>
    intro s
    obtain ⟨g1, g2, g3⟩ := translate_stats_update r s
    obtain ⟨h1, h2, h3⟩ := ih (translate r.req r.upstream r.elapsedMs s).2.1
    simp only [runAll]
    rw [h1, h2, h3, g1, g2, g3]
    simp only [List.countP_cons]
    cases hrs : runSucceeds r <;> simp [hrs] <;> omega

/-- Floor of the rational 10000/3. -/
theorem floor_ten_thousand_thirds : (⌊(10000 : Rat) / 3⌋ : Int) = 3333 := by
  rw [Int.floor_eq_iff]
  norm_num

/-- Rounding 1/3 to four decimal places gives 3333/10000. -/
theorem roundTo4_one_third : roundTo 4 ((1 : Rat) / 3) = 3333 / 10000 := by
  have hq : ((1 : Rat) / 3) * ((10 : Rat) ^ (4 : Nat)) = 10000 / 3 := by norm_num
  simp only [roundTo, roundHalfEven, hq, floor_ten_thousand_thirds]
  rw [if_pos (by norm_num)]
  norm_num

/-- C7 (amended): after any sequence of completed `translate` calls of
which N succeeded and M exhausted, the stats snapshot reports
`total_requests = N + M`, `successful = N`, `fallbacks = M`, and
`success_rate` equal to N/(N+M) rounded to 4 decimal places (the code
computes `round(successful / total, 4)`), not N/(N+M) exactly; with no
requests, `success_rate = 0` and `avg_response_time_ms = 0`. -/
theorem stats_counts_and_rounded_rate (rs : List RunSpec) :
    (statsSnapshot (runAll rs stats0)).total_requests =
      rs.countP runSucceeds + rs.countP (fun r => !(runSucceeds r)) ∧
    (statsSnapshot (runAll rs stats0)).successful = rs.countP runSucceeds ∧
    (statsSnapshot (runAll rs stats0)).fallbacks =
      rs.countP (fun r => !(runSucceeds r)) ∧
    (statsSnapshot (runAll rs stats0)).success_rate =
      (if 0 < rs.countP runSucceeds + rs.countP (fun r => !(runSucceeds r)) then
        roundTo 4 ((rs.countP runSucceeds : Rat) /
          ((rs.countP runSucceeds +
            rs.countP (fun r => !(runSucceeds r)) : Nat) : Rat))
      else 0) ∧
    (statsSnapshot stats0).success_rate = 0 ∧
    (statsSnapshot stats0).avg_response_time_ms = 0 := by
  obtain ⟨h1, h2, h3⟩ := runAll_stats rs stats0
  have h1s : (runAll rs stats0).totalRequests =
      rs.countP runSucceeds + rs.countP (fun r => !(runSucceeds r)) := by
    simpa [stats0] using h1
  have h2s : (runAll rs stats0).successful = rs.countP runSucceeds := by
    simpa [stats0] using h2
  have h3s : (runAll rs stats0).fallbacks =
      rs.countP (fun r => !(runSucceeds r)) := by
    simpa [stats0] using h3
  refine ⟨by simpa [statsSnapshot] using h1s, by simpa [statsSnapshot] using h2s,
    by simpa [statsSnapshot] using h3s, ?_,
    by simp [statsSnapshot, stats0], by simp [statsSnapshot, stats0]⟩
  simp only [statsSnapshot]
  rw [h1s, h2s]

/-- Three completed requests: one whose upstream succeeds immediately
and two whose upstream fails non-retryably, so one success and two
exhaustions. -/
def oneOfThreeRuns : List RunSpec :=
  [⟨⟨"a", "incoming", "", []⟩, fun _ => CallResult.ok "b", 0⟩,
   ⟨⟨"a", "incoming", "", []⟩, fun _ => CallResult.openRouter, 0⟩,
   ⟨⟨"a", "incoming", "", []⟩, fun _ => CallResult.openRouter, 0⟩]

/-- C7 counterexample: after 1 successful and 2 exhausted calls the
snapshot's `success_rate` is `round(1/3, 4) = 0.3333 = 3333/10000`,
which is not 1/3 exactly, refuting the claimed exact equality
`successRate == N/(N+M)`. -/
theorem stats_success_rate_not_exact :
    (statsSnapshot (runAll oneOfThreeRuns stats0)).total_requests = 3 ∧
    (statsSnapshot (runAll oneOfThreeRuns stats0)).successful = 1 ∧
    (statsSnapshot (runAll oneOfThreeRuns stats0)).fallbacks = 2 ∧
    (statsSnapshot (runAll oneOfThreeRuns stats0)).success_rate = 3333 / 10000 ∧
    (statsSnapshot (runAll oneOfThreeRuns stats0)).success_rate ≠ (1 : Rat) / 3 := by
  have ht : (runAll oneOfThreeRuns stats0).totalRequests = 3 := by decide
  have hs : (runAll oneOfThreeRuns stats0).successful = 1 := by decide
  have hrate : (statsSnapshot (runAll oneOfThreeRuns stats0)).success_rate =
      3333 / 10000 := by
    simp only [statsSnapshot, ht, hs]
    rw [if_pos (by norm_num)]
    norm_num [roundTo4_one_third]
  refine ⟨by decide, by decide, by decide, hrate, ?_⟩
  rw [hrate]
  norm_num

end TranslationProxy
